import Mathlib

/-!
# Verification of the `mk.py` build orchestrator

This file gives a shallow embedding of the command-line build script `mk.py`
(a CMake front end: platform-dependent toolchain defaults, a configure/build
controller, a glob-based test discovery and runner, and a module-level action
dispatcher) and proves or refutes the specification claims about it.

Modelling conventions:

* The host platform is the string `osName`, standing for Python's `os.name`
  (`"posix"` on POSIX systems, `"nt"` on Windows).  Every value the script
  derives from `os.name` becomes a function of `osName`.
* External effects are recorded as a trace of `Event`s: each `sp.run`
  invocation is `Event.run argv`, each `os.remove` / `shutil.rmtree` a
  corresponding event, and the error print in `command_clean`'s `except`
  branch is `Event.logError msg`.  The script passes `sp.run`'s result object
  around nowhere and never inspects `returncode`; accordingly the exit status
  an external command would return lives only in the environment
  (`World.exitCode`) and is never read by the embedded script.
* `World` is the relevant state of the machine: whether `./build` exists,
  whether `build/CMakeCache.txt` exists, the directory entries of `build/bin`,
  the files `get_all_sources` would enumerate, and whether `shutil.rmtree`
  would fail (with which OS error detail).
* The script's process exit code is `0` when the module runs to completion and
  `1` when an uncaught Python exception escapes (the only such source in the
  model is `os.remove` on an absent cache file, `FileNotFoundError`).
* `glob.glob` is embedded as `fnmatch` over the entry names of `build/bin`;
  the patterns the script builds contain only literal characters and `*`
  (provided the user pattern itself has no glob metacharacters), so the
  matcher implements exactly the literal/`*` fragment of glob semantics, and
  theorems about user-supplied patterns restrict them to that fragment.
  `list.sort()` is embedded as `List.mergeSort` on strings, which like
  Python's sort is a stable lexicographic-order sort.
-/

namespace Mk

/-! ## Settings (mk.py lines 21-29) -/

def POSIX_BUILDER : String := "Ninja"

def POSIX_CPP_COMPILER : String := "clang++"

def POSIX_C_COMPILER : String := "clang"

def POSIX_LINKER : String := "mold"

def WIN_BUILDER : String := "Ninja"

def WIN_CPP_COMPILER : String := "clang-cl"

def WIN_C_COMPILER : String := "clang-cl"

def WIN_LINKER : String := "lld-link"

/-- `os_choose(posix, win)` (line 34): `posix if os.name == "posix" else win`.
The host's `os.name` is the explicit argument `osName`. -/
def os_choose (osName posix win : String) : String :=
  if osName = "posix" then posix else win

/-- `CURRENT_BUILDER` as initialised at module load (line 38). -/
def CURRENT_BUILDER (osName : String) : String :=
  os_choose osName POSIX_BUILDER WIN_BUILDER

/-- `CURRENT_CPP_COMPILER` as initialised at module load (line 39). -/
def CURRENT_CPP_COMPILER (osName : String) : String :=
  os_choose osName POSIX_CPP_COMPILER WIN_CPP_COMPILER

/-- `CURRENT_C_COMPILER` as initialised at module load (line 40). -/
def CURRENT_C_COMPILER (osName : String) : String :=
  os_choose osName POSIX_C_COMPILER WIN_C_COMPILER

/-- `CURRENT_LINKER` as initialised at module load (line 41). -/
def CURRENT_LINKER (osName : String) : String :=
  os_choose osName POSIX_LINKER WIN_LINKER

/-- `CMAKE_FLAGS` (lines 44-56).  Crucially, in the source this list is built
at module load time, *before* the argument parser runs and before the override
block at lines 245-252 reassigns the `CURRENT_*` globals; the f-strings have
already been evaluated with the platform defaults.  The embedding therefore
depends only on `osName`, never on the parsed overrides — that is the
behaviour of the code, not a simplification. -/
def CMAKE_FLAGS (osName : String) : List String :=
  ["-G=" ++ CURRENT_BUILDER osName,
   "-DCMAKE_CXX_COMPILER=" ++ CURRENT_CPP_COMPILER osName,
   "-DCMAKE_C_COMPILER=" ++ CURRENT_C_COMPILER osName]
  ++ (if CURRENT_LINKER osName = "mold" then
        ["-DCMAKE_EXE_LINKER_FLAGS=\x27-fuse-ld=" ++ CURRENT_LINKER osName ++ "\x27",
         "-DCMAKE_SHARED_LINKER_FLAGS=\x27-fuse-ld=" ++ CURRENT_LINKER osName ++ "\x27"]
      else [])

/-- `DEBUG_FLAGS` (lines 59-64). -/
def DEBUG_FLAGS : List String :=
  ["-DCMAKE_BUILD_TYPE=Debug",
   "-DPSH_DEBUG=ON",
   "-DPSH_ENABLE_LOGGING=ON",
   "-DPSH_BUILD_TESTS=ON"]

/-- `RELEASE_FLAGS` (lines 65-70). -/
def RELEASE_FLAGS : List String :=
  ["-DCMAKE_BUILD_TYPE=Release",
   "-DPSH_DEBUG=OFF",
   "-DPSH_ENABLE_LOGGING=OFF",
   "-DPSH_BUILD_TESTS=ON"]

/-- `BINARY_EXT` (line 74): `os_choose("", ".exe")`. -/
def BINARY_EXT (osName : String) : String :=
  os_choose osName "" ".exe"

/-- The path separator `pathlib` uses when rendering paths on each platform. -/
def pathSep (osName : String) : String :=
  os_choose osName "/" "\\"

/-- `str(BUILD_DIR)` for `BUILD_DIR = Path("./build")` (line 79); `pathlib`
normalises away the leading `./`, on both platforms. -/
def strBUILD_DIR : String := "build"

/-- `str(BIN_DIR)` for `BIN_DIR = BUILD_DIR / "bin"` (line 80). -/
def strBIN_DIR (osName : String) : String :=
  strBUILD_DIR ++ pathSep osName ++ "bin"

/-- `str(CMAKE_CACHE_PATH)` for `CMAKE_CACHE_PATH = BUILD_DIR / "CMakeCache.txt"`
(line 81). -/
def strCMAKE_CACHE_PATH (osName : String) : String :=
  strBUILD_DIR ++ pathSep osName ++ "CMakeCache.txt"

/-- Full path of an entry of the `build/bin` directory, as `glob.glob` returns
it (the directory part of the pattern is echoed verbatim in each result). -/
def binPath (osName entry : String) : String :=
  strBIN_DIR osName ++ pathSep osName ++ entry

/-! ## Observable effects and machine state -/

/-- One observable external effect of the script. -/
inductive Event where
  /-- `sp_run(cmd)` (line 106): an external command is launched with `argv`. -/
  | run (argv : List String) : Event
  /-- `os.remove(path)` succeeding (line 148). -/
  | removeFile (path : String) : Event
  /-- `shutil.rmtree(path)` succeeding (line 154). -/
  | removeTree (path : String) : Event
  /-- `log_error(msg)` (line 157): an error report printed to the user. -/
  | logError (msg : String) : Event
  deriving DecidableEq, Repr

/-- The state of the machine the script runs against. -/
structure World where
  /-- Whether `./build` exists (`os.path.exists("./build")`, line 164). -/
  buildDirExists : Bool
  /-- Whether `build/CMakeCache.txt` exists (read by `os.remove`, line 148). -/
  cacheFileExists : Bool
  /-- The names of the entries of `build/bin` (enumerated by `glob.glob`). -/
  binEntries : List String
  /-- The files `get_all_sources()` (lines 128-135) enumerates via `os.walk`,
  an external filesystem primitive. -/
  srcFiles : List String
  /-- `some (filename, strerror)` when `shutil.rmtree("./build")` would raise
  `OSError` with that detail; `none` when it would succeed. -/
  rmtreeError : Option (String × String)
  /-- The exit status each external command would return.  The script never
  reads it (`sp_run` discards `sp.run`'s result), so no definition below
  depends on this field; it exists so that claims can speak about the exit
  statuses of launched subprocesses. -/
  exitCode : List String → Int

/-- The parsed command-line arguments (lines 197-243).  `argparse` semantics:
each override defaults to `None`; `--build` carries `"debug"`/`"release"`
(const `"debug"`), `--test` carries a pattern (const `"all"`). -/
structure Args where
  c_compiler : Option String := none
  cpp_compiler : Option String := none
  linker : Option String := none
  builder : Option String := none
  clean : Bool := false
  build : Option String := none
  test : Option String := none
  clear_cache : Bool := false
  fmt : Bool := false
  spell : Bool := false

/-! ## The override block (lines 245-252)

After parsing, the script reassigns the `CURRENT_*` globals from the
overrides.  These merged values are the script's final toolchain
configuration; note that nothing executed afterwards reads them —
`CMAKE_FLAGS` was already materialised at module load. -/

/-- `CURRENT_BUILDER` after the override block (lines 245-246). -/
def mergedBuilder (osName : String) (args : Args) : String :=
  args.builder.getD (CURRENT_BUILDER osName)

/-- `CURRENT_C_COMPILER` after the override block (lines 247-248). -/
def mergedCCompiler (osName : String) (args : Args) : String :=
  args.c_compiler.getD (CURRENT_C_COMPILER osName)

/-- `CURRENT_CPP_COMPILER` after the override block (lines 249-250). -/
def mergedCppCompiler (osName : String) (args : Args) : String :=
  args.cpp_compiler.getD (CURRENT_CPP_COMPILER osName)

/-- `CURRENT_LINKER` after the override block (lines 251-252). -/
def mergedLinker (osName : String) (args : Args) : String :=
  args.linker.getD (CURRENT_LINKER osName)

/-! ## Glob matching (`glob.glob`, line 118)

The patterns the script constructs are `"test*" + BINARY_EXT` and
`"test*" + pattern + "*" + BINARY_EXT`: literal characters and `*` only,
as long as the user pattern contains no glob metacharacter.  `fnmatch`
implements that fragment: `*` matches any (possibly empty) run of
characters, every other character matches itself. -/

/-- Glob matching over character lists, `*` and literals only: `*` matches an
arbitrary (possibly empty) run of characters, i.e. the rest of the pattern may
take over at any suffix of the subject; every other character matches itself. -/
def fnmatch : List Char → List Char → Bool
  | [], s => s.isEmpty
  | c :: ps, s =>
    if c == '*' then (s.tails).any (fun t => fnmatch ps t)
    else match s with
      | [] => false
      | d :: s' => c == d && fnmatch ps s'

/-- Glob matching on strings. -/
def fnmatchStr (pat s : String) : Bool :=
  fnmatch pat.data s.data

/-- The glob pattern `command_test`'s helper builds (line 117):
`f"test*{BINARY_EXT}"` when `pattern is None`, else
`f"test*{pattern}*{BINARY_EXT}"`. -/
def searchPattern (osName : String) : Option String → String
  | none => "test*" ++ BINARY_EXT osName
  | some p => "test*" ++ p ++ "*" ++ BINARY_EXT osName

/-- Lexicographic ≤ on character lists by code point: exactly Python's
string comparison.  The empty list is least; otherwise compare the heads and
fall through to the tails only on equality. -/
def lexLe : List Char → List Char → Bool
  | [], _ => true
  | _ :: _, [] => false
  | c :: cs, d :: ds => if c = d then lexLe cs ds else decide (c < d)

/-- Python's `str` ≤: lexicographic by code point. -/
def strLe (a b : String) : Bool :=
  lexLe a.data b.data

/-- Insert a string into an already `strLe`-sorted list, keeping it sorted. -/
def insertSorted (x : String) : List String → List String
  | [] => [x]
  | y :: ys => if strLe x y then x :: y :: ys else y :: insertSorted x ys

/-- `tests.sort()` (line 119): Python's sort is a stable sort by the
lexicographic (code-point) order on strings.  On strings that order is
antisymmetric — elements comparing equal are identical strings — so every
sorting algorithm produces the same list; we embed it as the structurally
recursive insertion sort. -/
def sortStr : List String → List String
  | [] => []
  | x :: xs => insertSorted x (sortStr xs)

/-- The sorted list of full paths `run_tests` iterates over (lines 117-119):
`glob.glob(str(BIN_DIR / search))` filters the entries of `build/bin` by the
basename pattern and yields `dir + sep + name`; then the list is sorted. -/
def testsOf (osName : String) (binEntries : List String) (pattern : Option String) :
    List String :=
  sortStr (((binEntries.filter
    (fun e => fnmatchStr (searchPattern osName pattern) e))).map (binPath osName))

/-- `run_tests(pattern)` (lines 115-124): discover, sort, and run each test
binary in order (`run_bin(test)` is `sp_run([test])`). -/
def run_tests (osName : String) (binEntries : List String) (pattern : Option String) :
    List Event :=
  (testsOf osName binEntries pattern).map (fun t => Event.run [t])

/-! ## Configure / build / test commands -/

/-- The argument vector of the configure invocation (lines 168-178):
`["cmake", *CMAKE_FLAGS, *build_flags, "-S", ".", "-B", str(BUILD_DIR)]`. -/
def configureArgs (osName : String) (build_flags : List String) : List String :=
  ["cmake"] ++ CMAKE_FLAGS osName ++ build_flags ++ ["-S", ".", "-B", strBUILD_DIR]

/-- The argument vector of the build invocation (line 181). -/
def buildCommandArgs : List String :=
  ["cmake", "--build", strBUILD_DIR]

/-- `command_build(build_flags)` (lines 163-181): when `./build` does not
exist, run the generator once with `CMAKE_FLAGS` plus the caller's flags;
then unconditionally run the build driver. -/
def command_build (osName : String) (buildDirExists : Bool)
    (build_flags : List String) : List Event :=
  (if buildDirExists then [] else [Event.run (configureArgs osName build_flags)])
  ++ [Event.run buildCommandArgs]

/-- `command_test(pattern)` (lines 184-194): ensure built (with *no* profile
flags — `command_build()` uses its default `build_flags=[]`), then:
sentinel `"all"` runs every test; else if `BIN_DIR / pattern` exists the
script calls `run_bin(pattern)` — note the argument is the bare `pattern`
string, not `BIN_DIR / pattern`; else substring discovery runs. -/
def command_test (osName : String) (buildDirExists : Bool)
    (binEntries : List String) (pattern : String) : List Event :=
  command_build osName buildDirExists []
  ++ (if pattern = "all" then run_tests osName binEntries none
      else if binEntries.contains pattern then [Event.run [pattern]]
      else run_tests osName binEntries (some pattern))

/-! ## The module-level dispatcher (lines 254-269)

Fixed action order: fmt, spell, clean, clear-cache, build, test.  Only
`command_clear_cache` can raise an uncaught exception (`os.remove` on an
absent file, line 148); `command_clean` catches its `OSError` and logs it
(lines 153-160). -/

/-- The error message `command_clean` prints on failure (lines 157-159),
carrying the OS-level detail (`e.filename`, `e.strerror`). -/
def cleanErrorMsg (filename strerror : String) : String :=
  "Unable to remove build directory due to error: [" ++ filename ++ "] " ++ strerror

/-- Events of the fmt and spell actions (lines 254-257), which precede the
clean action. -/
def preCleanEvents (args : Args) (w : World) : List Event :=
  (if args.fmt then [Event.run (["clang-format", "-i"] ++ w.srcFiles)] else [])
  ++ (if args.spell then [Event.run ["codespell"]] else [])

/-- The clean action (lines 258-259 dispatching to lines 151-160).  On
success the whole `./build` tree — including the cache file inside it — is
gone; on `OSError` the error is logged with OS detail and the state is left
as it was. -/
def cleanStep (args : Args) (w : World) : List Event × World :=
  if args.clean then
    match w.rmtreeError with
    | some fs => ([Event.logError (cleanErrorMsg fs.1 fs.2)], w)
    | none => ([Event.removeTree "./build"],
               { w with buildDirExists := false, cacheFileExists := false })
  else ([], w)

/-- The build action (lines 262-267): `match args.build` has cases only for
`"debug"` and `"release"`; any other value falls through silently.  After a
configure+build the `./build` directory exists (the generator creates it). -/
def buildStep (osName : String) (args : Args) (w : World) : List Event × World :=
  match args.build with
  | none => ([], w)
  | some b =>
    if b = "debug" then
      (command_build osName w.buildDirExists DEBUG_FLAGS, { w with buildDirExists := true })
    else if b = "release" then
      (command_build osName w.buildDirExists RELEASE_FLAGS, { w with buildDirExists := true })
    else ([], w)

/-- The test action (lines 268-269). -/
def testStep (osName : String) (args : Args) (w : World) : List Event :=
  match args.test with
  | none => []
  | some pattern => command_test osName w.buildDirExists w.binEntries pattern

/-- The actions from clear-cache onwards (lines 260-269).  When clear-cache
is requested and the cache file is absent, `os.remove` raises
`FileNotFoundError`, which no handler catches: the interpreter aborts with
exit status 1 and the remaining actions never run. -/
def postCleanRun (osName : String) (args : Args) (w : World) : List Event × Nat :=
  if args.clear_cache && !w.cacheFileExists then ([], 1)
  else
    let s3 := if args.clear_cache then
        ([Event.removeFile (strCMAKE_CACHE_PATH osName)], { w with cacheFileExists := false })
      else ([], w)
    let s4 := buildStep osName args s3.2
    let e5 := testStep osName args s4.2
    (s3.1 ++ s4.1 ++ e5, 0)

/-- One whole invocation of the script: the trace of external effects and
the process exit status.  `sp.run` outcomes are never consulted (the source
ignores `returncode` throughout), so the exit status is 0 unless an uncaught
exception escapes. -/
def runScript (osName : String) (args : Args) (w : World) : List Event × Nat :=
  let e1 := preCleanEvents args w
  let s2 := cleanStep args w
  let s3 := postCleanRun osName args s2.2
  (e1 ++ s2.1 ++ s3.1, s3.2)

/-! ## Concrete machine states used by the counterexamples -/

/-- A quiescent machine: fresh checkout (no build directory), every external
command would exit 0. -/
def baseWorld : World :=
  { buildDirExists := false
    cacheFileExists := true
    binEntries := []
    srcFiles := []
    rmtreeError := none
    exitCode := fun _ => 0 }

/-- Machine for the exit-status counterexample: the build directory already
exists, one test binary is present, and the external build driver would exit
with status 1. -/
def worldBuildFails : World :=
  { baseWorld with
    buildDirExists := true
    binEntries := ["test_foo"]
    exitCode := fun c => if c = buildCommandArgs then 1 else 0 }

/-- Invocation `python mk.py --clear-cache --build debug` on a machine where
the build directory exists but the CMake cache file does not. -/
def argsClearCacheBuild : Args :=
  { clear_cache := true, build := some "debug" }

/-- Machine for the clear-cache counterexample: build directory present, cache
file absent. -/
def worldNoCache : World :=
  { baseWorld with buildDirExists := true, cacheFileExists := false }

/-! ## Supporting lemmas: the glob matcher

`fnmatch` on the script's patterns (literal prefix, `*`, user pattern, `*`,
literal suffix) is characterised as a decomposition of the subject string. -/

theorem fnmatch_nil_iff (s : List Char) : fnmatch [] s = true ↔ s = [] := by
  cases s <;> simp [fnmatch]

theorem fnmatch_star_eq (p : List Char) (s : List Char) :
    fnmatch ('*' :: p) s = (s.tails).any (fun t => fnmatch p t) := rfl

theorem fnmatch_star_iff (p : List Char) (s : List Char) :
    fnmatch ('*' :: p) s = true ↔ ∃ a b, s = a ++ b ∧ fnmatch p b = true := by
  rw [fnmatch_star_eq]
  constructor
  · intro h
    obtain ⟨t, ht, hm⟩ := List.any_eq_true.1 h
    obtain ⟨a, ha⟩ := (List.mem_tails _ _).1 ht
    exact ⟨a, t, ha.symm, hm⟩
  · rintro ⟨a, b, rfl, hm⟩
    exact List.any_eq_true.2 ⟨b, (List.mem_tails _ _).2 ⟨a, rfl⟩, hm⟩

theorem fnmatch_cons_iff {c : Char} (hc : ¬ c = '*') (p : List Char) (s : List Char) :
    fnmatch (c :: p) s = true ↔ ∃ s', s = c :: s' ∧ fnmatch p s' = true := by
  have hb : (c == '*') = false := by simpa using hc
  cases s with
  | nil => simp [fnmatch, hb]
  | cons d s' =>
    simp only [fnmatch, hb, Bool.false_eq_true, if_false, Bool.and_eq_true, beq_iff_eq]
    constructor
    · rintro ⟨rfl, h2⟩
      exact ⟨s', rfl, h2⟩
    · rintro ⟨t, ht, hm⟩
      injection ht with h1 h2
      exact ⟨h1.symm, by rw [h2]; exact hm⟩

theorem fnmatch_lits_iff {l : List Char} (hl : '*' ∉ l) (p : List Char) (s : List Char) :
    fnmatch (l ++ p) s = true ↔ ∃ s', s = l ++ s' ∧ fnmatch p s' = true := by
  induction l generalizing s with
  | nil => simp
  | cons c cs ih =>
    have hc : ¬ c = '*' := fun h => hl (h ▸ List.mem_cons_self c cs)
    have hcs : '*' ∉ cs := fun h => hl (List.mem_cons_of_mem c h)
    rw [List.cons_append, fnmatch_cons_iff hc]
    constructor
    · rintro ⟨s', rfl, hm⟩
      obtain ⟨t, rfl, hm'⟩ := (ih hcs s').1 hm
      exact ⟨t, by rw [List.cons_append], hm'⟩
    · rintro ⟨t, ht, hm⟩
      rw [List.cons_append] at ht
      exact ⟨cs ++ t, ht, (ih hcs (cs ++ t)).2 ⟨t, rfl, hm⟩⟩

/-- The full search pattern `test*<S>*<ext>` matches `name` exactly when
`name` decomposes as `test ++ a ++ S ++ b ++ ext`. -/
theorem fnmatch_search_iff {S ext : List Char} (hS : '*' ∉ S) (hext : '*' ∉ ext)
    (name : List Char) :
    fnmatch ((['t', 'e', 's', 't', '*'] ++ S) ++ '*' :: ext) name = true
      ↔ ∃ a b, name = ['t', 'e', 's', 't'] ++ a ++ S ++ b ++ ext := by
  have hshape : (['t', 'e', 's', 't', '*'] ++ S) ++ '*' :: ext
      = ['t', 'e', 's', 't'] ++ ('*' :: (S ++ '*' :: ext)) := by simp
  rw [hshape,
      fnmatch_lits_iff (by decide) ('*' :: (S ++ '*' :: ext)) name]
  constructor
  · rintro ⟨s1, rfl, h1⟩
    obtain ⟨a, b1, rfl, h2⟩ := (fnmatch_star_iff _ _).1 h1
    obtain ⟨s2, rfl, h3⟩ := (fnmatch_lits_iff hS _ _).1 h2
    obtain ⟨a2, b2, rfl, h4⟩ := (fnmatch_star_iff _ _).1 h3
    have hb2 : b2 = ext := by
      obtain ⟨s3, rfl, h5⟩ := (fnmatch_lits_iff hext [] b2).1 (by simpa using h4)
      rw [(fnmatch_nil_iff s3).1 h5, List.append_nil]
    subst hb2
    exact ⟨a, a2, by simp [List.append_assoc]⟩
  · rintro ⟨a, b, rfl⟩
    refine ⟨a ++ S ++ b ++ ext, by simp [List.append_assoc], ?_⟩
    refine (fnmatch_star_iff _ _).2 ⟨a, S ++ b ++ ext, by simp [List.append_assoc], ?_⟩
    refine (fnmatch_lits_iff hS _ _).2 ⟨b ++ ext, by simp [List.append_assoc], ?_⟩
    refine (fnmatch_star_iff _ _).2 ⟨b, ext, rfl, ?_⟩
    have hextm : fnmatch (ext ++ []) ext = true :=
      (fnmatch_lits_iff hext [] ext).2 ⟨[], by simp, rfl⟩
    simpa using hextm

/-- `BINARY_EXT` never contains a glob metacharacter. -/
theorem star_not_mem_BINARY_EXT (osName : String) : '*' ∉ (BINARY_EXT osName).data := by
  by_cases h : osName = "posix" <;> simp [BINARY_EXT, os_choose, h]

/-- String level: the search pattern built for a user pattern `S` (without
glob metacharacters) matches a directory entry exactly when the entry
decomposes as `"test" ++ a ++ S ++ b ++ BINARY_EXT`. -/
theorem fnmatchStr_search_iff (osName : String) {S : String} (hS : '*' ∉ S.data)
    (e : String) :
    fnmatchStr (searchPattern osName (some S)) e = true
      ↔ ∃ a b : String, e = "test" ++ a ++ S ++ b ++ BINARY_EXT osName := by
  have hdata : (searchPattern osName (some S)).data
      = (['t', 'e', 's', 't', '*'] ++ S.data) ++ '*' :: (BINARY_EXT osName).data := by
    simp [searchPattern, String.data_append]
  rw [fnmatchStr, hdata,
      fnmatch_search_iff hS (star_not_mem_BINARY_EXT osName) e.data]
  constructor
  · rintro ⟨a, b, hab⟩
    refine ⟨String.mk a, String.mk b, String.ext ?_⟩
    simpa [String.data_append] using hab
  · rintro ⟨a, b, rfl⟩
    exact ⟨a.data, b.data, by simp [String.data_append]⟩

/-! ## Supporting lemmas: the lexicographic sort -/

theorem lexLe_total (a b : List Char) : lexLe a b = true ∨ lexLe b a = true := by
  induction a generalizing b with
  | nil => left; rfl
  | cons c cs ih =>
    cases b with
    | nil => right; rfl
    | cons d ds =>
      by_cases h : c = d
      · subst h
        simp only [lexLe, if_pos rfl]
        exact ih ds
      · rcases lt_trichotomy c d with hlt | heq | hgt
        · left; simp [lexLe, h, hlt]
        · exact absurd heq h
        · right
          have h' : ¬ d = c := fun hh => h hh.symm
          simp [lexLe, h', hgt]

theorem lexLe_trans {a b c : List Char} (h1 : lexLe a b = true) (h2 : lexLe b c = true) :
    lexLe a c = true := by
  induction a generalizing b c with
  | nil => rfl
  | cons x xs ih =>
    cases b with
    | nil => simp [lexLe] at h1
    | cons y ys =>
      cases c with
      | nil => simp [lexLe] at h2
      | cons z zs =>
        by_cases hxy : x = y
        · subst hxy
          simp only [lexLe, if_pos rfl] at h1
          by_cases hyz : x = z
          · subst hyz
            simp only [lexLe, if_pos rfl] at h2 ⊢
            exact ih h1 h2
          · simp only [lexLe, if_neg hyz] at h2 ⊢
            exact h2
        · simp only [lexLe, if_neg hxy] at h1
          have hxy' : x < y := of_decide_eq_true h1
          by_cases hyz : y = z
          · subst hyz
            simp [lexLe, hxy, hxy']
          · have hyz' : y < z := by
              simp only [lexLe, if_neg hyz] at h2
              exact of_decide_eq_true h2
            have hxz : x < z := lt_trans hxy' hyz'
            simp [lexLe, ne_of_lt hxz, hxz]

theorem strLe_total (a b : String) : strLe a b = true ∨ strLe b a = true :=
  lexLe_total a.data b.data

theorem strLe_trans {a b c : String} (h1 : strLe a b = true) (h2 : strLe b c = true) :
    strLe a c = true :=
  lexLe_trans h1 h2

theorem mem_insertSorted {x a : String} : ∀ {l : List String},
    a ∈ insertSorted x l ↔ a = x ∨ a ∈ l := by
  intro l
  induction l with
  | nil => simp [insertSorted]
  | cons y ys ih =>
    by_cases h : strLe x y
    · simp [insertSorted, h, List.mem_cons]
    · simp only [insertSorted, if_neg h, List.mem_cons, ih]
      tauto

theorem pairwise_insertSorted {x : String} : ∀ {l : List String},
    l.Pairwise (fun a b => strLe a b = true) →
    (insertSorted x l).Pairwise (fun a b => strLe a b = true) := by
  intro l
  induction l with
  | nil => intro _; simp [insertSorted]
  | cons y ys ih =>
    intro h
    rw [List.pairwise_cons] at h
    obtain ⟨hy, hys⟩ := h
    by_cases hxy : strLe x y
    · rw [insertSorted, if_pos hxy, List.pairwise_cons]
      refine ⟨?_, List.pairwise_cons.2 ⟨hy, hys⟩⟩
      intro b hb
      rcases List.mem_cons.1 hb with rfl | hb'
      · exact hxy
      · exact strLe_trans hxy (hy b hb')
    · rw [insertSorted, if_neg hxy, List.pairwise_cons]
      refine ⟨?_, ih hys⟩
      intro b hb
      rcases mem_insertSorted.1 hb with rfl | hb'
      · rcases strLe_total b y with h' | h'
        · exact absurd h' hxy
        · exact h'
      · exact hy b hb'

theorem sortStr_pairwise : ∀ l : List String,
    (sortStr l).Pairwise (fun a b => strLe a b = true) := by
  intro l
  induction l with
  | nil => simp [sortStr]
  | cons x xs ih => exact pairwise_insertSorted ih

theorem mem_sortStr {a : String} : ∀ {l : List String}, a ∈ sortStr l ↔ a ∈ l := by
  intro l
  induction l with
  | nil => simp [sortStr]
  | cons x xs ih =>
    simp only [sortStr, mem_insertSorted, List.mem_cons, ih]

/-- The map `entry ↦ build/bin/<entry>` is injective: two entries with the
same full path are the same entry. -/
theorem binPath_injective (osName : String) {e₁ e₂ : String}
    (h : binPath osName e₁ = binPath osName e₂) : e₁ = e₂ := by
  have h' := congrArg String.data h
  simp only [binPath, String.data_append, List.append_assoc] at h'
  exact String.ext (List.append_cancel_left (List.append_cancel_left h'))

/-! ## The claims -/

/-- Claim C1 (code bug).  The claim says a toolchain override supplied on the
command line (`--builder`, `--cpp-compiler`, `--c-compiler`, `--linker`)
appears in the configure argument vector.  In the code the override block
(lines 245-252) reassigns the `CURRENT_*` globals only *after* `CMAKE_FLAGS`
(lines 44-56) has already been materialised from the platform defaults, and
nothing later reads the reassigned globals, so overrides never reach the
generator invocation.  First conjunct: the whole run is independent of all
four override fields.  Remaining conjuncts: on a POSIX host with
`--cpp-compiler g++ --build debug` the merged configuration does carry
`g++`, yet the configure argv carries the default `clang++` and not `g++`. -/
theorem C1_toolchain_overrides_ignored :
    (∀ (osName : String) (args : Args) (w : World) (b c p l : Option String),
        runScript osName
          { args with builder := b, c_compiler := c, cpp_compiler := p, linker := l } w
          = runScript osName args w)
    ∧ mergedCppCompiler "posix" { cpp_compiler := some "g++", build := some "debug" } = "g++"
    ∧ (runScript "posix" { cpp_compiler := some "g++", build := some "debug" } baseWorld).1
        = [Event.run (configureArgs "posix" DEBUG_FLAGS), Event.run buildCommandArgs]
    ∧ ((configureArgs "posix" DEBUG_FLAGS).contains "-DCMAKE_CXX_COMPILER=clang++") = true
    ∧ ((configureArgs "posix" DEBUG_FLAGS).contains "-DCMAKE_CXX_COMPILER=g++") = false := by
  refine ⟨?_, rfl, by decide, by decide, by decide⟩
  intro osName args w b c p l
  cases args
  rfl

/-- Claim C2 (counterexample).  The claim says the process exit code is 0 iff
every launched subprocess exited 0, and that a failed build withholds the
test step.  Concretely: with `--build debug --test all` on a machine where
the external build driver exits 1, the build command is launched (and exits
1 per the environment), yet the script's exit code is 0 and the test binary
is still executed afterwards — `sp_run` (lines 106-108) never checks
`returncode` and the dispatcher never aborts. -/
theorem C2_exit_code_counterexample :
    Event.run buildCommandArgs
        ∈ (runScript "posix" { build := some "debug", test := some "all" } worldBuildFails).1
    ∧ worldBuildFails.exitCode buildCommandArgs = 1
    ∧ (runScript "posix" { build := some "debug", test := some "all" } worldBuildFails).2 = 0
    ∧ Event.run [binPath "posix" "test_foo"]
        ∈ (runScript "posix" { build := some "debug", test := some "all" } worldBuildFails).1 := by
  refine ⟨by decide, by decide, by decide, by decide⟩

/-- Claim C2 (amended).  Subprocess exit statuses are never inspected: the
process exit code is 1 exactly when clear-cache is requested and the cache
file is missing at that point (an uncaught `FileNotFoundError` — including
when a successful clean has just deleted it), and 0 otherwise, regardless of
the exit status of any subprocess; in particular a failed configure or build
does not withhold the test step. -/
theorem C2_exit_code_amended (osName : String) (args : Args) (w : World) :
    (runScript osName args w).2
      = if args.clear_cache && !(w.cacheFileExists && !(args.clean && w.rmtreeError.isNone))
        then 1 else 0 := by
  have hclean : (cleanStep args w).2.cacheFileExists
      = (w.cacheFileExists && !(args.clean && w.rmtreeError.isNone)) := by
    cases hc : args.clean <;> cases hr : w.rmtreeError <;> simp [cleanStep, hc, hr]
  have hpost : ∀ w' : World, (postCleanRun osName args w').2
      = if args.clear_cache && !w'.cacheFileExists then 1 else 0 := by
    intro w'
    by_cases h : (args.clear_cache && !w'.cacheFileExists) = true <;>
      simp [postCleanRun, h]
  show (postCleanRun osName args (cleanStep args w).2).2 = _
  rw [hpost, hclean]

/-- Claim C3 (code bug).  When the pattern names an existing file directly
under `build/bin`, the claim (and the source comment at lines 189-190) says
that one binary under the binary directory is executed.  The code's branch
(line 192) calls `run_bin(pattern)` with the bare pattern string, not
`BIN_DIR / pattern`: the launched argv is `["test_alpha"]`, which the OS
resolves via PATH/current directory, not `build/bin`.  No discovery happens
(that part of the claim holds), but the executed path is not the file whose
existence was just checked. -/
theorem C3_exact_match_runs_bare_name :
    ((["test_alpha"] : List String).contains "test_alpha") = true
    ∧ command_test "posix" true ["test_alpha"] "test_alpha"
        = [Event.run buildCommandArgs, Event.run ["test_alpha"]]
    ∧ binPath "posix" "test_alpha" = "build/bin/test_alpha"
    ∧ ("build/bin/test_alpha" == "test_alpha") = false := by
  refine ⟨by decide, by decide, by decide, by decide⟩

/-- Claim C4 (counterexample).  The claim says discovery selects every entry
that starts with the test prefix, ends with the platform suffix, and
contains the pattern *anywhere* in the name.  The entry `test_a` starts
with `test`, ends with the (empty) POSIX suffix and contains `est`
(at offset 1), yet the glob `test*est*` requires the pattern to occur after
the 4-character prefix, so discovery selects nothing. -/
theorem C4_substring_discovery_counterexample :
    ("est" == "all") = false
    ∧ ((["test_a"] : List String).contains "est") = false
    ∧ "test_a" = "test" ++ "_a"
    ∧ "test_a" = "t" ++ "est" ++ "_a"
    ∧ BINARY_EXT "posix" = ""
    ∧ testsOf "posix" ["test_a"] (some "est") = []
    ∧ run_tests "posix" ["test_a"] (some "est") = [] := by
  refine ⟨by decide, by decide, by decide, by decide, rfl, by decide, by decide⟩

/-- Claim C4 (amended).  For a pattern `S` free of glob metacharacters,
discovery selects exactly the entries of the binary directory of the form
`test ++ a ++ S ++ b ++ BINARY_EXT` — i.e. `S` must occur as a substring *at
or after the end of the `test` prefix and before the suffix* — and runs
them in lexicographic (code-point) order of their full paths. -/
theorem C4_substring_discovery_amended (osName S : String) (entries : List String)
    (hS : ∀ c ∈ S.data, ¬ c = '*' ∧ ¬ c = '?' ∧ ¬ c = '[') :
    (∀ e : String,
        binPath osName e ∈ testsOf osName entries (some S)
          ↔ e ∈ entries ∧ ∃ a b : String, e = "test" ++ a ++ S ++ b ++ BINARY_EXT osName)
    ∧ (testsOf osName entries (some S)).Pairwise (fun a b => strLe a b = true)
    ∧ run_tests osName entries (some S)
        = (testsOf osName entries (some S)).map (fun t => Event.run [t]) := by
  have hS' : '*' ∉ S.data := fun hmem => ((hS _ hmem).1 rfl)
  refine ⟨?_, sortStr_pairwise _, rfl⟩
  intro e
  unfold testsOf
  rw [mem_sortStr]
  constructor
  · intro h
    obtain ⟨e', he', heq⟩ := List.mem_map.1 h
    have he : e' = e := binPath_injective osName heq
    have hf := List.mem_filter.1 he'
    rw [he] at hf
    exact ⟨hf.1, (fnmatchStr_search_iff osName hS' e).1 hf.2⟩
  · rintro ⟨hmem, hdec⟩
    exact List.mem_map.2
      ⟨e, List.mem_filter.2 ⟨hmem, (fnmatchStr_search_iff osName hS' e).2 hdec⟩, rfl⟩

/-- Witness for the amended C4 at a concrete input. -/
theorem C4_substring_discovery_amended_witness :
    (∀ c ∈ ("alpha" : String).data, ¬ c = '*' ∧ ¬ c = '?' ∧ ¬ c = '[')
    ∧ ((testsOf "posix" ["test_beta", "test_alpha"] (some "alpha")).Pairwise
          (fun a b => strLe a b = true)
      ∧ run_tests "posix" ["test_beta", "test_alpha"] (some "alpha")
          = (testsOf "posix" ["test_beta", "test_alpha"] (some "alpha")).map
              (fun t => Event.run [t])) :=
  ⟨by decide,
    (C4_substring_discovery_amended "posix" "alpha" ["test_beta", "test_alpha"]
      (by decide)).2⟩

/-- Claim C5 (code bug).  The claim says linker-exclusive flags appear iff
the *merged* linker equals `"mold"`.  The guard at line 50 runs at module
load against the platform default, before the override block: on a POSIX
host with `--linker lld` the merged linker is `lld` yet the argv still
carries both `mold` linker flags; on a Windows host with `--linker mold`
the merged linker is `mold` yet no linker flag appears. -/
theorem C5_linker_flags_from_default_not_merged :
    mergedLinker "posix" { linker := some "lld", build := some "debug" } = "lld"
    ∧ ("lld" == "mold") = false
    ∧ ((configureArgs "posix" DEBUG_FLAGS).contains
        "-DCMAKE_EXE_LINKER_FLAGS=\x27-fuse-ld=mold\x27") = true
    ∧ ((configureArgs "posix" DEBUG_FLAGS).contains
        "-DCMAKE_SHARED_LINKER_FLAGS=\x27-fuse-ld=mold\x27") = true
    ∧ (runScript "posix" { linker := some "lld", build := some "debug" } baseWorld).1
        = [Event.run (configureArgs "posix" DEBUG_FLAGS), Event.run buildCommandArgs]
    ∧ mergedLinker "nt" { linker := some "mold" } = "mold"
    ∧ ((configureArgs "nt" []).contains "-DCMAKE_EXE_LINKER_FLAGS=\x27-fuse-ld=mold\x27")
        = false
    ∧ ((configureArgs "nt" []).contains "-DCMAKE_SHARED_LINKER_FLAGS=\x27-fuse-ld=mold\x27")
        = false := by
  refine ⟨rfl, by decide, by decide, by decide, by decide, rfl, by decide, by decide⟩

/-- Claim C6 (counterexample).  The claim says a clear-cache failure (cache
marker absent) is reported with OS detail and is non-fatal, the dispatcher
continuing to the subsequent requested actions.  With `--clear-cache
--build debug` on a machine without the cache file, `os.remove` raises an
uncaught `FileNotFoundError`: the run produces *no* events — no error
report, and in particular no build invocation — and exits 1. -/
theorem C6_failure_handling_counterexample :
    argsClearCacheBuild.clear_cache = true
    ∧ argsClearCacheBuild.build = some "debug"
    ∧ worldNoCache.cacheFileExists = false
    ∧ runScript "posix" argsClearCacheBuild worldNoCache = ([], 1) := by
  refine ⟨rfl, rfl, rfl, by decide⟩

/-- Claim C6 (amended).  A failure of the clean action is reported with
OS-level detail and is non-fatal — the remaining actions produce exactly the
events and exit code they would produce had clean not been requested.  A
failure of the clear-cache action (cache file absent), however, is an
uncaught exception: the script stops right there with exit code 1 and no
subsequent action runs. -/
theorem C6_failure_handling_amended :
    (∀ (osName : String) (args : Args) (w : World) (f s : String),
      ∃ (tail : List Event) (code : Nat),
        runScript osName { args with clean := false } { w with rmtreeError := some (f, s) }
          = (preCleanEvents args { w with rmtreeError := some (f, s) } ++ tail, code)
        ∧ runScript osName { args with clean := true } { w with rmtreeError := some (f, s) }
          = (preCleanEvents args { w with rmtreeError := some (f, s) }
              ++ Event.logError (cleanErrorMsg f s) :: tail, code))
    ∧ (∀ (osName : String) (args : Args) (w : World),
        runScript osName { args with clear_cache := true } { w with cacheFileExists := false }
          = (preCleanEvents args { w with cacheFileExists := false }
              ++ (cleanStep { args with clear_cache := true }
                    { w with cacheFileExists := false }).1, 1)) := by
  constructor
  · intro osName args w f s
    refine ⟨(postCleanRun osName args { w with rmtreeError := some (f, s) }).1,
            (postCleanRun osName args { w with rmtreeError := some (f, s) }).2, ?_, ?_⟩
    · show (preCleanEvents args { w with rmtreeError := some (f, s) } ++ []
              ++ (postCleanRun osName args { w with rmtreeError := some (f, s) }).1,
            (postCleanRun osName args { w with rmtreeError := some (f, s) }).2)
          = (preCleanEvents args { w with rmtreeError := some (f, s) }
              ++ (postCleanRun osName args { w with rmtreeError := some (f, s) }).1,
             (postCleanRun osName args { w with rmtreeError := some (f, s) }).2)
      simp
    · show (preCleanEvents args { w with rmtreeError := some (f, s) }
              ++ [Event.logError (cleanErrorMsg f s)]
              ++ (postCleanRun osName args { w with rmtreeError := some (f, s) }).1,
            (postCleanRun osName args { w with rmtreeError := some (f, s) }).2)
          = (preCleanEvents args { w with rmtreeError := some (f, s) }
              ++ Event.logError (cleanErrorMsg f s)
                :: (postCleanRun osName args { w with rmtreeError := some (f, s) }).1,
             (postCleanRun osName args { w with rmtreeError := some (f, s) }).2)
      simp
  · intro osName args w
    cases args with
    | mk cc cpp l bu cl bd te cc2 fm sp =>
      cases hcl : cl <;> cases hre : w.rmtreeError <;>
        simp [runScript, cleanStep, preCleanEvents, postCleanRun, hre, List.append_assoc]

/-- Claim C7 (confirmed).  `command_build`: when the build directory is
absent the generator is invoked exactly once, before the build driver; when
it is present no configure invocation happens; the build driver runs
unconditionally in both cases (lines 163-181). -/
theorem C7_build_configure_once (osName : String) (build_flags : List String) :
    command_build osName false build_flags
        = [Event.run (configureArgs osName build_flags), Event.run buildCommandArgs]
    ∧ command_build osName true build_flags = [Event.run buildCommandArgs] :=
  ⟨rfl, rfl⟩

/-- Claim C8 (confirmed).  For the same toolchain configuration, the Debug
and Release configure argument vectors have the same length, agree
everywhere outside the four-slot profile bundle (the prefix before it and
the suffix after it coincide), and in the bundle slots carry exactly
`DEBUG_FLAGS` resp. `RELEASE_FLAGS` — which differ as sequences.  So the two
vectors differ exactly in the profile-bundle flags and are otherwise
identical. -/
theorem C8_profile_flag_difference (osName : String) :
    (configureArgs osName DEBUG_FLAGS).take (1 + (CMAKE_FLAGS osName).length)
        = (configureArgs osName RELEASE_FLAGS).take (1 + (CMAKE_FLAGS osName).length)
    ∧ (configureArgs osName DEBUG_FLAGS).drop (1 + (CMAKE_FLAGS osName).length + 4)
        = (configureArgs osName RELEASE_FLAGS).drop (1 + (CMAKE_FLAGS osName).length + 4)
    ∧ ((configureArgs osName DEBUG_FLAGS).drop (1 + (CMAKE_FLAGS osName).length)).take 4
        = DEBUG_FLAGS
    ∧ ((configureArgs osName RELEASE_FLAGS).drop (1 + (CMAKE_FLAGS osName).length)).take 4
        = RELEASE_FLAGS
    ∧ (configureArgs osName DEBUG_FLAGS).length = (configureArgs osName RELEASE_FLAGS).length
    ∧ ((DEBUG_FLAGS : List String) == RELEASE_FLAGS) = false := by
  by_cases h : osName = "posix"
  · subst h; decide
  · simp only [configureArgs, CMAKE_FLAGS, CURRENT_BUILDER, CURRENT_CPP_COMPILER,
      CURRENT_C_COMPILER, CURRENT_LINKER, os_choose, h, if_false]
    decide

/-- Claim C9 (counterexample).  The claim says any platform other than the
two recognised families fails with UnsupportedPlatform before any action.
`os_choose` (line 34) has no failure mode: a host whose `os.name` is
`"java"` — neither `"posix"` nor `"nt"` — silently resolves to the entire
Windows-family toolchain default. -/
theorem C9_platform_resolution_counterexample :
    ("java" == "posix") = false
    ∧ ("java" == "nt") = false
    ∧ CURRENT_BUILDER "java" = WIN_BUILDER
    ∧ CURRENT_CPP_COMPILER "java" = WIN_CPP_COMPILER
    ∧ CURRENT_C_COMPILER "java" = WIN_C_COMPILER
    ∧ CURRENT_LINKER "java" = WIN_LINKER := by
  refine ⟨by decide, by decide, rfl, rfl, rfl, rfl⟩

/-- Claim C9 (amended).  Platform resolution never fails: `os.name ==
"posix"` selects the POSIX defaults, and *every* other platform name —
recognised or not — silently resolves to the Windows-family defaults
(including the `.exe` binary suffix). -/
theorem C9_platform_resolution_amended (osName : String) (h : osName ≠ "posix") :
    CURRENT_BUILDER osName = WIN_BUILDER
    ∧ CURRENT_CPP_COMPILER osName = WIN_CPP_COMPILER
    ∧ CURRENT_C_COMPILER osName = WIN_C_COMPILER
    ∧ CURRENT_LINKER osName = WIN_LINKER
    ∧ BINARY_EXT osName = ".exe" := by
  simp [CURRENT_BUILDER, CURRENT_CPP_COMPILER, CURRENT_C_COMPILER, CURRENT_LINKER,
    BINARY_EXT, os_choose, h]

/-- Witness for the amended C9 at the concrete platform name `"java"`. -/
theorem C9_platform_resolution_amended_witness :
    "java" ≠ "posix"
    ∧ (CURRENT_BUILDER "java" = WIN_BUILDER
      ∧ CURRENT_CPP_COMPILER "java" = WIN_CPP_COMPILER
      ∧ CURRENT_C_COMPILER "java" = WIN_C_COMPILER
      ∧ CURRENT_LINKER "java" = WIN_LINKER
      ∧ BINARY_EXT "java" = ".exe") :=
  ⟨by decide, C9_platform_resolution_amended "java" (by decide)⟩

/-- Claim C10 (confirmed).  When the test action finds the build directory
absent, the implicitly triggered configure step (via `command_build()` with
its default empty `build_flags`, line 185) is the first launched command and
its argument vector contains no flag of either profile bundle. -/
theorem C10_test_configure_has_no_profile_flags (osName : String)
    (binEntries : List String) (pattern : String) :
    (command_test osName false binEntries pattern).head?
        = some (Event.run (configureArgs osName []))
    ∧ ((DEBUG_FLAGS ++ RELEASE_FLAGS).all
        (fun f => !((configureArgs osName []).contains f))) = true := by
  constructor
  · rfl
  · by_cases h : osName = "posix"
    · subst h; decide
    · simp only [configureArgs, CMAKE_FLAGS, CURRENT_BUILDER, CURRENT_CPP_COMPILER,
        CURRENT_C_COMPILER, CURRENT_LINKER, os_choose, h, if_false]
      decide

end Mk
